import Mathlib

/-!
Shallow embedding of the MoonTVPlus scan-and-merge pipeline (the `performScan`
background task of the OpenList refresh route) and of the OpenList branch of the
detail route (`GET /api/detail`).

Modelling conventions:
* Timestamps (`Date.now()`) are a `Nat` parameter `now` of the run.
* JavaScript objects keyed by folder name are association lists
  `List (String × FolderEntry)`; assignment `obj[k] = v` is `setEntry`
  (replace if present, append otherwise), truthiness of `obj[k]` is `hasEntry`.
* JSON string fields that may be `undefined` are modelled as `String` with
  `""` standing for absent; JavaScript `a || b` on such strings is `jsOrS`
  (both `undefined` and `""` are falsy).
* A TMDB search (`searchTMDB`) is a function `String → LookupOutcome`: the
  call either throws (`thrown`) or returns a status code and an optional
  best-match record (`resp code result`).
* The observable effects of a run (progress updates, lookup attempts,
  rate-limit delays, store writes, cache update, task outcome) are collected
  in a `ScanLog` returned by `performScan`.
-/

namespace MoonTV

/-- One resolved (or failed/sentinel) metadata record for a folder,
mirroring the object literals written into `metaInfo.folders`. -/
structure FolderEntry where
  tmdb_id : Nat
  title : String
  poster_path : Option String
  release_date : String
  overview : String
  vote_average : Int
  media_type : String
  last_updated : Nat
  failed : Bool
  deriving DecidableEq, Repr

/-- `folders` maps of the metadata document, as an association list. -/
abbrev Folders := List (String × FolderEntry)

/-- The durable metadata document (`MetaInfo` in the source). -/
structure MetaInfo where
  folders : Folders
  last_refresh : Nat
  deriving DecidableEq, Repr

/-- One entry of the remote directory listing (`{name, is_dir}`). -/
structure FItem where
  name : String
  is_dir : Bool
  deriving DecidableEq, Repr

/-- Response of `client.listDirectory`: a status code and the entries. -/
structure ListResponse where
  code : Nat
  content : List FItem
  deriving DecidableEq, Repr

/-- A TMDB best-match record; `""` in a string field models an absent field. -/
structure TMDBResult where
  id : Nat
  title : String
  name : String
  poster_path : Option String
  release_date : String
  first_air_date : String
  overview : String
  vote_average : Int
  media_type : String
  deriving DecidableEq, Repr

/-- Outcome of one `searchTMDB` call: the call throws, or returns a status
code and an optional result. -/
inductive LookupOutcome where
  | thrown : LookupOutcome
  | resp : Nat → Option TMDBResult → LookupOutcome
  deriving DecidableEq, Repr

/-- One `updateScanTaskProgress(taskId, processed, total, currentItem?)` call. -/
structure ProgressUpdate where
  processed : Nat
  total : Nat
  currentItem : Option String
  deriving DecidableEq, Repr

/-- The summary passed to `completeScanTask`. -/
structure ScanResult where
  total : Nat
  new : Nat
  existing : Int
  errors : Nat
  deriving DecidableEq, Repr

/-- Terminal outcome of the task: completed with a summary, or failed. -/
inductive ScanOutcome where
  | completed : ScanResult → ScanOutcome
  | failed : String → ScanOutcome
  deriving DecidableEq, Repr

/-- The inputs of one `performScan` run: cache and store contents on entry,
the remote listing response, the TMDB lookup behaviour, the clock, and
whether the final `db.saveAdminConfig` call throws (with which message). -/
structure ScanEnv where
  cached : Option MetaInfo
  stored : Option MetaInfo
  listResp : ListResponse
  lookup : String → LookupOutcome
  now : Nat
  saveConfigError : Option String

/-- Accumulated state of the per-folder loop. -/
structure LoopState where
  folders : Folders
  newCount : Nat
  errorCount : Nat
  progress : List ProgressUpdate
  lookups : List String
  delayedAfter : List String
  deriving DecidableEq, Repr

/-- Everything observable about one run. -/
structure ScanLog where
  progress : List ProgressUpdate
  lookups : List String
  delayedAfter : List String
  storeWrites : List MetaInfo
  cacheSet : Option MetaInfo
  configSaved : Bool
  outcome : ScanOutcome
  deriving DecidableEq, Repr

/-- JavaScript `a || b` for strings where `""` models a falsy/absent field. -/
def jsOrS (a b : String) : String := if a = "" then b else a

/-- Truthiness of `obj[k]` for the folders object. -/
def hasEntry (fs : Folders) (k : String) : Bool :=
  fs.any (fun p => p.1 == k)

/-- Read `obj[k]` for the folders object. -/
def getEntry (fs : Folders) (k : String) : Option FolderEntry :=
  (fs.find? (fun p => p.1 == k)).map (fun p => p.2)

/-- JavaScript assignment `obj[k] = v` for the folders object. -/
def setEntry (fs : Folders) (k : String) (v : FolderEntry) : Folders :=
  if hasEntry fs k then fs.map (fun p => if p.1 == k then (k, v) else p)
  else fs ++ [(k, v)]

/-- The sentinel entry written when TMDB returns no match or the call throws. -/
def sentinelEntry (folderName : String) (now : Nat) : FolderEntry :=
  { tmdb_id := 0
    title := folderName
    poster_path := none
    release_date := ""
    overview := ""
    vote_average := 0
    media_type := "movie"
    last_updated := now
    failed := true }

/-- The entry written on a successful TMDB match (`searchResult.code === 200`
and a truthy result): `title || name || folder.name` and
`release_date || first_air_date || ''` use JavaScript falsiness. -/
def matchEntry (folderName : String) (r : TMDBResult) (now : Nat) : FolderEntry :=
  { tmdb_id := r.id
    title := jsOrS r.title (jsOrS r.name folderName)
    poster_path := r.poster_path
    release_date := jsOrS r.release_date (jsOrS r.first_air_date "")
    overview := r.overview
    vote_average := r.vote_average
    media_type := r.media_type
    last_updated := now
    failed := false }

/-- Did the lookup call itself throw (as opposed to returning a response)? -/
def isThrown : LookupOutcome → Bool
  | .thrown => true
  | .resp _ _ => false

/-- Did the lookup produce a usable match (`code === 200 && result`)? -/
def lookupSucceeds : LookupOutcome → Bool
  | .resp code (some _) => code == 200
  | _ => false

/-- The entry the loop records for a fresh folder, as a function of the
lookup outcome. -/
def entryFor (lk : String → LookupOutcome) (now : Nat) (f : FItem) : FolderEntry :=
  match lk f.name with
  | .thrown => sentinelEntry f.name now
  | .resp code res =>
    match res with
    | some r => if code = 200 then matchEntry f.name r now else sentinelEntry f.name now
    | none => sentinelEntry f.name now

/-- The body of one loop iteration after the progress update: skip if an
entry already exists, otherwise attempt the lookup, record the resulting
entry, bump the counters, and (unless the call threw) run the rate-limit
delay. -/
def stepFolder (lk : String → LookupOutcome) (now : Nat) (f : FItem)
    (s : LoopState) : LoopState :=
  if hasEntry s.folders f.name then s
  else
    match lk f.name with
    | .thrown =>
      { s with
        folders := setEntry s.folders f.name (sentinelEntry f.name now)
        errorCount := s.errorCount + 1
        lookups := s.lookups ++ [f.name] }
    | .resp code res =>
      let s2 : LoopState :=
        { s with
          lookups := s.lookups ++ [f.name]
          delayedAfter := s.delayedAfter ++ [f.name] }
      match res with
      | some r =>
        if code = 200 then
          { s2 with
            folders := setEntry s2.folders f.name (matchEntry f.name r now)
            newCount := s2.newCount + 1 }
        else
          { s2 with
            folders := setEntry s2.folders f.name (sentinelEntry f.name now)
            errorCount := s2.errorCount + 1 }
      | none =>
        { s2 with
          folders := setEntry s2.folders f.name (sentinelEntry f.name now)
          errorCount := s2.errorCount + 1 }

/-- One full loop iteration: the progress update for index `i`, then the body. -/
def processFolder (lk : String → LookupOutcome) (now total i : Nat)
    (f : FItem) (s : LoopState) : LoopState :=
  stepFolder lk now f
    { s with progress := s.progress ++ [⟨i + 1, total, some f.name⟩] }

/-- The scan loop over the listed folders, in listing order. -/
def runFolders (lk : String → LookupOutcome) (now total : Nat) :
    List FItem → Nat → LoopState → LoopState
  | [], _, s => s
  | f :: rest, i, s =>
    runFolders lk now total rest (i + 1) (processFolder lk now total i f s)

/-- Step 1 of the scan: resolve the existing document — cache hit first, then
the stored copy, then a fresh empty document. -/
def resolvedDoc (env : ScanEnv) : MetaInfo :=
  match (match env.cached with | some m => some m | none => env.stored) with
  | some m => m
  | none => { folders := [], last_refresh := env.now }

/-- The directory entries of the listing (`content.filter(item => item.is_dir)`). -/
def listedDirs (env : ScanEnv) : List FItem :=
  env.listResp.content.filter (fun it => it.is_dir)

/-- The whole `performScan` run as a pure function from its environment to
its observable effects. -/
def performScan (env : ScanEnv) : ScanLog :=
  let p0 : List ProgressUpdate := [⟨0, 0, none⟩]
  let metaInfo0 : MetaInfo := resolvedDoc env
  if env.listResp.code ≠ 200 then
    { progress := p0
      lookups := []
      delayedAfter := []
      storeWrites := []
      cacheSet := none
      configSaved := false
      outcome := .failed "OpenList 列表获取失败" }
  else
    let folders := listedDirs env
    let s0 : LoopState :=
      { folders := metaInfo0.folders
        newCount := 0
        errorCount := 0
        progress := p0 ++ [⟨0, folders.length, none⟩]
        lookups := []
        delayedAfter := [] }
    let s := runFolders env.lookup env.now folders.length folders 0 s0
    let finalDoc : MetaInfo := { folders := s.folders, last_refresh := env.now }
    match env.saveConfigError with
    | some msg =>
      { progress := s.progress
        lookups := s.lookups
        delayedAfter := s.delayedAfter
        storeWrites := [finalDoc]
        cacheSet := some finalDoc
        configSaved := false
        outcome := .failed msg }
    | none =>
      { progress := s.progress
        lookups := s.lookups
        delayedAfter := s.delayedAfter
        storeWrites := [finalDoc]
        cacheSet := some finalDoc
        configSaved := true
        outcome := .completed
          { total := folders.length
            new := s.newCount
            existing := (s.folders.length : Int) - (s.newCount : Int)
            errors := s.errorCount } }

/-- The loop state after the per-folder loop, on the successful-listing path. -/
def loopResult (env : ScanEnv) : LoopState :=
  runFolders env.lookup env.now (listedDirs env).length (listedDirs env) 0
    { folders := (resolvedDoc env).folders
      newCount := 0
      errorCount := 0
      progress := [⟨0, 0, none⟩, ⟨0, (listedDirs env).length, none⟩]
      lookups := []
      delayedAfter := [] }

/-- The merged document written to the store and cache at the end of a scan. -/
def finalDocOf (env : ScanEnv) : MetaInfo :=
  { folders := (loopResult env).folders, last_refresh := env.now }

/-! ### Concrete environments used by end-to-end theorems and witnesses -/

/-- The TMDB behaviour of the end-to-end scenario: a match (id 27205,
title 盗梦空间, movie) for "Inception (2010)", no match for anything else. -/
def lookupC1 : String → LookupOutcome := fun s =>
  if s = "Inception (2010)" then
    .resp 200 (some
      { id := 27205
        title := "盗梦空间"
        name := ""
        poster_path := some "/p.jpg"
        release_date := "2010-07-15"
        first_air_date := ""
        overview := "A thief."
        vote_average := 8
        media_type := "movie" })
  else .resp 200 none

/-- The end-to-end scenario: fresh root, two remote folders. -/
def envC1 : ScanEnv :=
  { cached := none
    stored := none
    listResp :=
      { code := 200
        content :=
          [{ name := "Inception (2010)", is_dir := true },
           { name := "Unknown Junk Folder", is_dir := true }] }
    lookup := lookupC1
    now := 1000
    saveConfigError := none }

/-- A minimal successful scan: one fresh folder, lookup succeeds. -/
def envOk : ScanEnv :=
  { cached := none
    stored := none
    listResp := { code := 200, content := [{ name := "A", is_dir := true }] }
    lookup := fun _ =>
      .resp 200 (some
        { id := 7
          title := "Alpha"
          name := ""
          poster_path := none
          release_date := "2001-01-01"
          first_air_date := ""
          overview := "o"
          vote_average := 7
          media_type := "movie" })
    now := 0
    saveConfigError := none }

/-! ### The detail route (`GET /api/detail`), OpenList branch and dispatch -/

/-- One episode returned by the OpenList detail API (`""` title models absent). -/
structure Episode where
  fileName : String
  title : String
  episode : Nat
  deriving DecidableEq, Repr

/-- Outcome of the internal fetch to `/api/openlist/detail`: the HTTP call is
not ok, the payload has `success: false` (with an optional error message,
`""` modelling absent), or it succeeds with a folder name and episodes. -/
inductive OpenListOutcome where
  | fetchNotOk : OpenListOutcome
  | notSuccess : String → OpenListOutcome
  | success : String → List Episode → OpenListOutcome
  deriving DecidableEq, Repr

/-- The detail record assembled for an OpenList folder. -/
structure DetailResult where
  source : String
  source_name : String
  id : String
  title : String
  poster : String
  year : String
  douban_id : Nat
  desc : String
  episodes : List String
  episodes_titles : List String
  deriving DecidableEq, Repr

/-- The response of the detail route, by branch. -/
inductive DetailResp where
  | unauthorized : DetailResp
  | badRequest : String → DetailResp
  | serverError : String → DetailResp
  | okOpenlist : DetailResult → DetailResp
  | okDownstream : DetailResp
  deriving DecidableEq, Repr

/-- Outcome of the non-OpenList downstream path: unknown api site, a detail
result, or `getDetailFromApi` throwing a message. -/
inductive DownstreamOutcome where
  | invalidSource : DownstreamOutcome
  | ok : DownstreamOutcome
  | err : String → DownstreamOutcome
  deriving DecidableEq, Repr

/-- Build the standard-format detail record of the OpenList branch.
`imgUrl` models `getTMDBImageUrl` and `enc` models `encodeURIComponent`. -/
def assembleDetail (imgUrl enc : String → String) (meta : Option MetaInfo)
    (id folder : String) (eps : List Episode) : DetailResult :=
  let folderMeta : Option FolderEntry :=
    meta.bind (fun m => getEntry m.folders id)
  { source := "openlist"
    source_name := "私人影库"
    id := folder
    title := jsOrS (match folderMeta with | some e => e.title | none => "") folder
    poster :=
      match folderMeta with
      | some e =>
        match e.poster_path with
        | some p => if p = "" then "" else imgUrl p
        | none => ""
      | none => ""
    year :=
      match folderMeta with
      | some e => if e.release_date = "" then "" else (e.release_date.splitOn "-").headD ""
      | none => ""
    douban_id := 0
    desc := jsOrS (match folderMeta with | some e => e.overview | none => "") ""
    episodes := eps.map (fun ep =>
      "/api/openlist/play?folder=" ++ enc folder ++ "&fileName=" ++ enc ep.fileName)
    episodes_titles := eps.map (fun ep =>
      jsOrS ep.title ("第" ++ toString ep.episode ++ "集")) }

/-- The whole `sourceCode === 'openlist'` branch of the route. -/
def handleOpenlist (configured : Bool) (meta : Option MetaInfo)
    (ol : OpenListOutcome) (imgUrl enc : String → String) (id : String) : DetailResp :=
  if !configured then .serverError "OpenList 未配置"
  else
    match ol with
    | .fetchNotOk => .serverError "获取 OpenList 视频详情失败"
    | .notSuccess e => .serverError (jsOrS e "获取视频详情失败")
    | .success folder eps => .okOpenlist (assembleDetail imgUrl enc meta id folder eps)

/-- The `/^[\w-]+$/` id-format test of the route. -/
def idFormatValid (s : String) : Bool :=
  s ≠ "" && s.toList.all (fun c => c.isAlphanum || c = '_' || c = '-')

/-- The non-OpenList path after the id-format check. -/
def handleDownstream (down : DownstreamOutcome) : DetailResp :=
  match down with
  | .invalidSource => .badRequest "无效的API来源"
  | .ok => .okDownstream
  | .err m => .serverError m

/-- The detail route's `GET` handler as a pure function: auth check, missing
parameters, the OpenList branch, then the id-format validation and the
downstream path. `""` for `id`/`source` models an absent query parameter. -/
def detailGET (auth : Bool) (id source : String) (configured : Bool)
    (meta : Option MetaInfo) (ol : OpenListOutcome) (imgUrl enc : String → String)
    (down : DownstreamOutcome) : DetailResp :=
  if !auth then .unauthorized
  else if id = "" || source = "" then .badRequest "缺少必要参数"
  else if source = "openlist" then handleOpenlist configured meta ol imgUrl enc id
  else if !(idFormatValid id) then .badRequest "无效的视频ID格式"
  else handleDownstream down

/-! ### Further concrete environments -/

/-- First run of the back-to-back scan pair: one fresh folder at time 0. -/
def envC2a : ScanEnv :=
  { cached := none
    stored := none
    listResp := { code := 200, content := [{ name := "A", is_dir := true }] }
    lookup := fun _ =>
      .resp 200 (some
        { id := 7
          title := "Alpha"
          name := ""
          poster_path := none
          release_date := "2001-01-01"
          first_air_date := ""
          overview := "o"
          vote_average := 7
          media_type := "movie" })
    now := 0
    saveConfigError := none }

/-- The document the first run caches and stores. -/
def docC2 : MetaInfo :=
  { folders :=
      [("A",
        { tmdb_id := 7
          title := "Alpha"
          poster_path := none
          release_date := "2001-01-01"
          overview := "o"
          vote_average := 7
          media_type := "movie"
          last_updated := 0
          failed := false })]
    last_refresh := 0 }

/-- Second run: same remote listing, the first run's document is cached,
the clock has advanced to 1. -/
def envC2b : ScanEnv :=
  { envC2a with cached := some docC2, now := 1 }

/-- A document carrying one previously-resolved folder "K" from an earlier
scan, used as the starting point of an incremental scan. -/
def docC3 : MetaInfo :=
  { folders :=
      [("K",
        { tmdb_id := 11
          title := "Kappa"
          poster_path := none
          release_date := "1999-09-09"
          overview := "k"
          vote_average := 6
          media_type := "movie"
          last_updated := 1
          failed := false })]
    last_refresh := 1 }

/-- An incremental three-folder scan in which exactly one previously-unknown
folder fails: "K" is already known (skipped at the already-exists check),
"A" is fresh and its lookup succeeds, "B" is fresh and gets no match; a
plain file in the listing is filtered out. -/
def envC3 : ScanEnv :=
  { cached := some docC3
    stored := none
    listResp :=
      { code := 200
        content :=
          [{ name := "K", is_dir := true },
           { name := "A", is_dir := true },
           { name := "notes.txt", is_dir := false },
           { name := "B", is_dir := true }] }
    lookup := fun s =>
      if s = "A" then
        .resp 200 (some
          { id := 7
            title := "Alpha"
            name := ""
            poster_path := none
            release_date := "2001-01-01"
            first_air_date := ""
            overview := "o"
            vote_average := 7
            media_type := "movie" })
      else .resp 200 none
    now := 5
    saveConfigError := none }

/-- A one-folder scan whose TMDB call throws. -/
def envC4 : ScanEnv :=
  { cached := none
    stored := none
    listResp := { code := 200, content := [{ name := "A", is_dir := true }] }
    lookup := fun _ => .thrown
    now := 5
    saveConfigError := none }

/-- A scan whose remote listing returns a non-200 status. -/
def envC7 : ScanEnv :=
  { envOk with listResp := { code := 500, content := [] } }

/-- A successful scan whose final `db.saveAdminConfig` call throws. -/
def envC9 : ScanEnv :=
  { envOk with saveConfigError := some "save failed" }

/-! ### Basic lemmas about the folders map and one loop step -/

theorem hasEntry_append (l₁ l₂ : Folders) (k : String) :
    hasEntry (l₁ ++ l₂) k = (hasEntry l₁ k || hasEntry l₂ k) := by
  simp [hasEntry]

theorem hasEntry_singleton_self (k : String) (v : FolderEntry) :
    hasEntry [(k, v)] k = true := by
  simp [hasEntry]

theorem setEntry_absent (fs : Folders) (k : String) (v : FolderEntry)
    (h : hasEntry fs k = false) : setEntry fs k v = fs ++ [(k, v)] := by
  simp [setEntry, h]

theorem stepFolder_skip (lk : String → LookupOutcome) (now : Nat) (f : FItem)
    (s : LoopState) (h : hasEntry s.folders f.name = true) :
    stepFolder lk now f s = s := by
  simp [stepFolder, h]

theorem stepFolder_fresh (lk : String → LookupOutcome) (now : Nat) (f : FItem)
    (s : LoopState) (h : hasEntry s.folders f.name = false) :
    stepFolder lk now f s =
      { s with
        folders := s.folders ++ [(f.name, entryFor lk now f)]
        newCount := s.newCount + (if lookupSucceeds (lk f.name) = true then 1 else 0)
        errorCount := s.errorCount + (if lookupSucceeds (lk f.name) = true then 0 else 1)
        lookups := s.lookups ++ [f.name]
        delayedAfter :=
          s.delayedAfter ++ (if isThrown (lk f.name) = true then [] else [f.name]) } := by
  cases hl : lk f.name with
  | thrown =>
    simp [stepFolder, h, hl, setEntry_absent _ _ _ h, entryFor, lookupSucceeds, isThrown]
  | resp code res =>
    cases res with
    | some r =>
      by_cases hc : code = 200
      · subst hc
        simp [stepFolder, h, hl, setEntry_absent _ _ _ h, entryFor, lookupSucceeds, isThrown]
      · simp [stepFolder, h, hl, setEntry_absent _ _ _ h, entryFor, lookupSucceeds, isThrown, hc]
    | none =>
      simp [stepFolder, h, hl, setEntry_absent _ _ _ h, entryFor, lookupSucceeds, isThrown]

theorem stepFolder_progress (lk : String → LookupOutcome) (now : Nat) (f : FItem)
    (s : LoopState) : (stepFolder lk now f s).progress = s.progress := by
  cases h : hasEntry s.folders f.name with
  | true => rw [stepFolder_skip _ _ _ _ h]
  | false => rw [stepFolder_fresh _ _ _ _ h]

theorem processFolder_progress (lk : String → LookupOutcome) (now total i : Nat)
    (f : FItem) (s : LoopState) :
    (processFolder lk now total i f s).progress
      = s.progress ++ [⟨i + 1, total, some f.name⟩] := by
  unfold processFolder
  rw [stepFolder_progress]

/-! ### Lemmas about the whole loop -/

theorem runFolders_progress_map (lk : String → LookupOutcome) (now total : Nat) :
    ∀ (fs : List FItem) (i : Nat) (s : LoopState),
      (runFolders lk now total fs i s).progress.map (fun p => p.processed)
        = s.progress.map (fun p => p.processed) ++ List.range' (i + 1) fs.length
  | [], i, s => by simp [runFolders]
  | f :: rest, i, s => by
    simp only [runFolders]
    rw [runFolders_progress_map lk now total rest (i + 1) _, processFolder_progress]
    simp [List.length_cons, List.range'_succ]

theorem stepFolder_folders_mono (lk : String → LookupOutcome) (now : Nat) (f : FItem)
    (s : LoopState) (m : String) (h : hasEntry s.folders m = true) :
    hasEntry (stepFolder lk now f s).folders m = true := by
  cases hf : hasEntry s.folders f.name with
  | true => rw [stepFolder_skip _ _ _ _ hf]; exact h
  | false => rw [stepFolder_fresh _ _ _ _ hf]; simp [hasEntry_append, h]

theorem stepFolder_folders_self (lk : String → LookupOutcome) (now : Nat) (f : FItem)
    (s : LoopState) : hasEntry (stepFolder lk now f s).folders f.name = true := by
  cases hf : hasEntry s.folders f.name with
  | true => rw [stepFolder_skip _ _ _ _ hf]; exact hf
  | false =>
    rw [stepFolder_fresh _ _ _ _ hf]
    simp [hasEntry_append, hasEntry_singleton_self]

theorem processFolder_folders_mono (lk : String → LookupOutcome) (now total i : Nat)
    (f : FItem) (s : LoopState) (m : String) (h : hasEntry s.folders m = true) :
    hasEntry (processFolder lk now total i f s).folders m = true :=
  stepFolder_folders_mono lk now f _ m h

theorem processFolder_folders_self (lk : String → LookupOutcome) (now total i : Nat)
    (f : FItem) (s : LoopState) :
    hasEntry (processFolder lk now total i f s).folders f.name = true :=
  stepFolder_folders_self lk now f _

theorem runFolders_folders_mono (lk : String → LookupOutcome) (now total : Nat) :
    ∀ (fs : List FItem) (i : Nat) (s : LoopState) (m : String),
      hasEntry s.folders m = true →
      hasEntry (runFolders lk now total fs i s).folders m = true
  | [], _, _, _, h => by simpa [runFolders] using h
  | f :: rest, i, s, m, h => by
    simp only [runFolders]
    exact runFolders_folders_mono lk now total rest (i + 1) _ m
      (processFolder_folders_mono lk now total i f s m h)

theorem runFolders_covers (lk : String → LookupOutcome) (now total : Nat) :
    ∀ (fs : List FItem) (i : Nat) (s : LoopState) (f : FItem), f ∈ fs →
      hasEntry (runFolders lk now total fs i s).folders f.name = true
  | [], _, _, f, hmem => by simp at hmem
  | g :: rest, i, s, f, hmem => by
    simp only [runFolders]
    rcases List.mem_cons.mp hmem with h | h
    · subst h
      exact runFolders_folders_mono lk now total rest (i + 1) _ _
        (processFolder_folders_self lk now total i f s)
    · exact runFolders_covers lk now total rest (i + 1) _ f h

theorem runFolders_all_known (lk : String → LookupOutcome) (now total : Nat) :
    ∀ (fs : List FItem) (i : Nat) (s : LoopState),
      (∀ f ∈ fs, hasEntry s.folders f.name = true) →
      (runFolders lk now total fs i s).folders = s.folders ∧
      (runFolders lk now total fs i s).newCount = s.newCount ∧
      (runFolders lk now total fs i s).errorCount = s.errorCount ∧
      (runFolders lk now total fs i s).lookups = s.lookups
  | [], i, s, _ => by simp [runFolders]
  | f :: rest, i, s, h => by
    simp only [runFolders]
    have hf := h f (List.mem_cons_self f rest)
    have hpf : processFolder lk now total i f s
        = { s with progress := s.progress ++ [⟨i + 1, total, some f.name⟩] } := by
      unfold processFolder
      exact stepFolder_skip _ _ _ _ hf
    rw [hpf]
    exact runFolders_all_known lk now total rest (i + 1) _
      (fun g hg => h g (List.mem_cons_of_mem f hg))

theorem processFolder_fresh (lk : String → LookupOutcome) (now total i : Nat)
    (f : FItem) (s : LoopState) (h : hasEntry s.folders f.name = false) :
    processFolder lk now total i f s =
      { s with
        progress := s.progress ++ [⟨i + 1, total, some f.name⟩]
        folders := s.folders ++ [(f.name, entryFor lk now f)]
        newCount := s.newCount + (if lookupSucceeds (lk f.name) = true then 1 else 0)
        errorCount := s.errorCount + (if lookupSucceeds (lk f.name) = true then 0 else 1)
        lookups := s.lookups ++ [f.name]
        delayedAfter :=
          s.delayedAfter ++ (if isThrown (lk f.name) = true then [] else [f.name]) } := by
  have h' : hasEntry (LoopState.mk s.folders s.newCount s.errorCount
      (s.progress ++ [⟨i + 1, total, some f.name⟩]) s.lookups s.delayedAfter).folders
      f.name = false := h
  unfold processFolder
  rw [stepFolder_fresh _ _ _ _ h']


theorem stepFolder_delayed (lk : String → LookupOutcome) (now : Nat) (f : FItem)
    (s : LoopState)
    (h : s.delayedAfter = s.lookups.filter (fun n => !(isThrown (lk n)))) :
    (stepFolder lk now f s).delayedAfter
      = (stepFolder lk now f s).lookups.filter (fun n => !(isThrown (lk n))) := by
  cases hf : hasEntry s.folders f.name with
  | true => rw [stepFolder_skip _ _ _ _ hf]; exact h
  | false =>
    rw [stepFolder_fresh _ _ _ _ hf]
    show s.delayedAfter ++ _ = (s.lookups ++ [f.name]).filter _
    rw [List.filter_append, ← h]
    cases ht : isThrown (lk f.name) <;> simp [ht]

theorem runFolders_delayed (lk : String → LookupOutcome) (now total : Nat) :
    ∀ (fs : List FItem) (i : Nat) (s : LoopState),
      s.delayedAfter = s.lookups.filter (fun n => !(isThrown (lk n))) →
      (runFolders lk now total fs i s).delayedAfter
        = (runFolders lk now total fs i s).lookups.filter (fun n => !(isThrown (lk n)))
  | [], _, s, h => by simpa [runFolders] using h
  | f :: rest, i, s, h => by
    simp only [runFolders]
    exact runFolders_delayed lk now total rest (i + 1) _ (stepFolder_delayed lk now f _ h)

/-! ### Arithmetic shape of the progress sequence -/

theorem chain_le_range' : ∀ (n k : Nat),
    List.Chain' (fun a b => a ≤ b) (List.range' k n)
  | 0, _ => by simp
  | n + 1, k => by
    rw [List.range'_succ, List.chain'_cons']
    refine ⟨?_, chain_le_range' n (k + 1)⟩
    intro y hy
    cases n with
    | zero => simp at hy
    | succ m =>
      rw [List.range'_succ] at hy
      simp at hy
      omega

theorem chain_le_progressShape (N : Nat) :
    List.Chain' (fun a b => a ≤ b) ([0, 0] ++ List.range' 1 N) := by
  show List.Chain' (fun a b => a ≤ b) (0 :: 0 :: List.range' 1 N)
  rw [List.chain'_cons]
  refine ⟨Nat.le_refl 0, ?_⟩
  rw [List.chain'_cons']
  refine ⟨fun y _ => Nat.zero_le y, chain_le_range' N 1⟩

theorem getLast_progressShape (N : Nat) :
    ([0, 0] ++ List.range' 1 N).getLast? = some N := by
  cases N with
  | zero => rfl
  | succ m =>
    rw [List.range'_1_concat, ← List.append_assoc, List.getLast?_concat]
    congr 1
    omega

/-! ### Shape of a whole run, by path -/

theorem performScan_listFail (env : ScanEnv) (h : env.listResp.code ≠ 200) :
    performScan env =
      { progress := [⟨0, 0, none⟩]
        lookups := []
        delayedAfter := []
        storeWrites := []
        cacheSet := none
        configSaved := false
        outcome := .failed "OpenList 列表获取失败" } := by
  unfold performScan
  rw [if_pos h]

theorem performScan_ok (env : ScanEnv) (h : env.listResp.code = 200) :
    performScan env =
      match env.saveConfigError with
      | some msg =>
        { progress := (loopResult env).progress
          lookups := (loopResult env).lookups
          delayedAfter := (loopResult env).delayedAfter
          storeWrites := [finalDocOf env]
          cacheSet := some (finalDocOf env)
          configSaved := false
          outcome := .failed msg }
      | none =>
        { progress := (loopResult env).progress
          lookups := (loopResult env).lookups
          delayedAfter := (loopResult env).delayedAfter
          storeWrites := [finalDocOf env]
          cacheSet := some (finalDocOf env)
          configSaved := true
          outcome := .completed
            { total := (listedDirs env).length
              new := (loopResult env).newCount
              existing := ((loopResult env).folders.length : Int)
                  - ((loopResult env).newCount : Int)
              errors := (loopResult env).errorCount } } := by
  unfold performScan loopResult finalDocOf
  rw [if_neg (by simp [h])]
  rfl

theorem performScan_ok_none (env : ScanEnv) (h : env.listResp.code = 200)
    (hs : env.saveConfigError = none) :
    performScan env =
      { progress := (loopResult env).progress
        lookups := (loopResult env).lookups
        delayedAfter := (loopResult env).delayedAfter
        storeWrites := [finalDocOf env]
        cacheSet := some (finalDocOf env)
        configSaved := true
        outcome := ScanOutcome.completed
          { total := (listedDirs env).length
            new := (loopResult env).newCount
            existing := ((loopResult env).folders.length : Int)
                - ((loopResult env).newCount : Int)
            errors := (loopResult env).errorCount } } := by
  rw [performScan_ok env h, hs]

theorem performScan_ok_some (env : ScanEnv) (msg : String)
    (h : env.listResp.code = 200) (hs : env.saveConfigError = some msg) :
    performScan env =
      { progress := (loopResult env).progress
        lookups := (loopResult env).lookups
        delayedAfter := (loopResult env).delayedAfter
        storeWrites := [finalDocOf env]
        cacheSet := some (finalDocOf env)
        configSaved := false
        outcome := ScanOutcome.failed msg } := by
  rw [performScan_ok env h, hs]

/-! ### Claim theorems -/

/-- C1, counterexample: in the end-to-end scenario (fresh root, folders
"Inception (2010)" and "Unknown Junk Folder", a TMDB match only for the
first), the task result is NOT `{total: 2, new: 1, existing: 0, errors: 1}`
as the claim states: the sentinel entry written for the failed folder also
counts toward `Object.keys(metaInfo.folders).length`, so `existing` is
`2 − 1 = 1`, not `0`. -/
theorem c1_counterexample :
    (performScan envC1).outcome ≠
      ScanOutcome.completed { total := 2, new := 1, existing := 0, errors := 1 } := by
  decide

/-- C1 (amended): in the end-to-end scenario the final document maps
"Inception (2010)" to a resolved entry (catalogId 27205, title 盗梦空间,
failed = false) and "Unknown Junk Folder" to the sentinel (catalogId 0,
title = folder name, failed = true), and the task completes with result
`{total: 2, new: 1, existing: 1, errors: 1}`, where `existing` is
`total_known − new = 2 − 1` because the sentinel also counts as known. -/
theorem c1_end_to_end_scenario :
    getEntry (finalDocOf envC1).folders "Inception (2010)" =
      some { tmdb_id := 27205
             title := "盗梦空间"
             poster_path := some "/p.jpg"
             release_date := "2010-07-15"
             overview := "A thief."
             vote_average := 8
             media_type := "movie"
             last_updated := 1000
             failed := false } ∧
    getEntry (finalDocOf envC1).folders "Unknown Junk Folder" =
      some (sentinelEntry "Unknown Junk Folder" 1000) ∧
    (performScan envC1).storeWrites = [finalDocOf envC1] ∧
    (performScan envC1).outcome =
      ScanOutcome.completed { total := 2, new := 1, existing := 1, errors := 1 } := by
  decide

/-- C4, counterexample: in a one-folder scan whose TMDB call throws, the
folder is looked up (it was not skipped at the already-exists check) but no
inter-call delay runs: the `catch` block that records the sentinel entry
skips the `setTimeout`, contradicting the claim that the delay is applied
after every lookup attempt, failed ones included. -/
theorem c4_counterexample :
    (performScan envC4).lookups = ["A"] ∧ (performScan envC4).delayedAfter = [] := by
  decide

/-- C4 (amended): the fixed inter-call delay runs after exactly those lookup
attempts that returned a response (successful match or no-match); it is
skipped for folders skipped at the already-exists check and also when the
lookup call itself throws. -/
theorem c4_delay_after_returned_attempts (env : ScanEnv) :
    (performScan env).delayedAfter
      = (performScan env).lookups.filter (fun n => !(isThrown (env.lookup n))) := by
  have hd : (loopResult env).delayedAfter
      = (loopResult env).lookups.filter (fun n => !(isThrown (env.lookup n))) := by
    unfold loopResult
    exact runFolders_delayed _ _ _ _ _ _ (by simp)
  by_cases h : env.listResp.code = 200
  · rw [performScan_ok env h]
    cases env.saveConfigError <;> exact hd
  · rw [performScan_listFail env h]
    rfl

/-- C6, counterexample: already in a minimal successful scan the sequence of
`processed` values reported is `[0, 0, 1]` — the initial
`updateScanTaskProgress(taskId, 0, 0)` and the post-listing
`updateScanTaskProgress(taskId, 0, total)` both report 0 — so the reported
values are not strictly monotonically increasing. -/
theorem c6_counterexample :
    ((performScan envOk).progress.map (fun p => p.processed)) = [0, 0, 1] ∧
    ¬ List.Chain' (fun a b => a < b) [0, 0, 1] := by
  refine ⟨by decide, ?_⟩
  rw [List.chain'_cons]
  simp

theorem loopResult_progress_map (env : ScanEnv) :
    (loopResult env).progress.map (fun p => p.processed)
      = [0, 0] ++ List.range' 1 (listedDirs env).length := by
  unfold loopResult
  rw [runFolders_progress_map]
  rfl

theorem performScan_progress_chain (env : ScanEnv) :
    List.Chain' (fun a b => a ≤ b)
      ((performScan env).progress.map (fun p => p.processed)) := by
  by_cases h : env.listResp.code = 200
  · rw [performScan_ok env h]
    cases env.saveConfigError <;>
      · show List.Chain' _ ((loopResult env).progress.map (fun p => p.processed))
        rw [loopResult_progress_map]
        exact chain_le_progressShape _
  · rw [performScan_listFail env h]
    simp

/-- C6 (amended): for every scan, the sequence of `processed` values reported
via `updateScanTaskProgress` is non-decreasing (consecutive updates may repeat
a value: the initial `(0, 0)` update and the post-listing `(0, total)` update
both report 0). -/
theorem c6_progress_nondecreasing (env : ScanEnv) :
    List.Chain' (fun a b => a ≤ b)
      ((performScan env).progress.map (fun p => p.processed)) :=
  performScan_progress_chain env

/-- C5: for every scan, the sequence of `processed` values passed to
`updateScanTaskProgress` is non-decreasing, and when the task completes with
result `r` the final reported `processed` value equals the folder total
`r.total`. -/
theorem c5_progress_monotone_reaches_total (env : ScanEnv) (r : ScanResult)
    (hr : (performScan env).outcome = ScanOutcome.completed r) :
    List.Chain' (fun a b => a ≤ b)
      ((performScan env).progress.map (fun p => p.processed)) ∧
    ((performScan env).progress.map (fun p => p.processed)).getLast?
      = some r.total := by
  refine ⟨performScan_progress_chain env, ?_⟩
  by_cases h : env.listResp.code = 200
  · cases hse : env.saveConfigError with
    | some msg =>
      rw [performScan_ok_some env msg h hse] at hr
      exact absurd hr (by simp)
    | none =>
      rw [performScan_ok_none env h hse] at hr
      simp only [ScanOutcome.completed.injEq] at hr
      rw [performScan_ok_none env h hse]
      show ((loopResult env).progress.map (fun p => p.processed)).getLast? = _
      rw [loopResult_progress_map, getLast_progressShape, ← hr]
  · rw [performScan_listFail env h] at hr
    exact absurd hr (by simp)

/-- C5 witness: in the minimal successful one-folder scan, the progress
sequence is non-decreasing and its last reported `processed` value is the
folder total 1. -/
theorem c5_witness :
    List.Chain' (fun a b => a ≤ b)
      ((performScan envOk).progress.map (fun p => p.processed)) ∧
    ((performScan envOk).progress.map (fun p => p.processed)).getLast?
      = some (1 : Nat) :=
  c5_progress_monotone_reaches_total envOk
    { total := 1, new := 1, existing := 0, errors := 0 } (by decide)

/-- C7: when the remote listing gateway returns a non-200 status the scan is
fatal: the task fails with the listing-failure error message and neither a
store write nor a cache update happens in that run. -/
theorem c7_listing_failure_fatal (env : ScanEnv) (h : env.listResp.code ≠ 200) :
    (performScan env).outcome = ScanOutcome.failed "OpenList 列表获取失败" ∧
    (performScan env).storeWrites = [] ∧
    (performScan env).cacheSet = none := by
  rw [performScan_listFail env h]
  exact ⟨rfl, rfl, rfl⟩

/-- C7 witness: a scan whose listing returns status 500 fails with the
listing-failure message and writes nothing. -/
theorem c7_witness :
    (performScan envC7).outcome = ScanOutcome.failed "OpenList 列表获取失败" ∧
    (performScan envC7).storeWrites = [] ∧
    (performScan envC7).cacheSet = none :=
  c7_listing_failure_fatal envC7 (by decide)

/-- C9: if the run reaches the final configuration save and that save throws,
the task is marked failed even though the merged post-scan document has
already been written to the store and the cache: a terminal `failed` status
does not imply persisted state was left unchanged. -/
theorem c9_fail_after_store_write (env : ScanEnv) (msg : String)
    (hcode : env.listResp.code = 200)
    (hsave : env.saveConfigError = some msg) :
    (performScan env).outcome = ScanOutcome.failed msg ∧
    (performScan env).storeWrites = [finalDocOf env] ∧
    (performScan env).cacheSet = some (finalDocOf env) := by
  rw [performScan_ok_some env msg hcode hsave]
  exact ⟨rfl, rfl, rfl⟩

/-- C9 witness: a successful one-folder scan whose `saveAdminConfig` throws
"save failed" ends failed while the store and cache hold the merged document. -/
theorem c9_witness :
    (performScan envC9).outcome = ScanOutcome.failed "save failed" ∧
    (performScan envC9).storeWrites = [finalDocOf envC9] ∧
    (performScan envC9).cacheSet = some (finalDocOf envC9) :=
  c9_fail_after_store_write envC9 "save failed" (by decide) (by decide)

/-- C2, counterexample: two consecutive scans of an unchanged one-folder
remote at times 0 and 1. The second run performs no lookup and keeps the
folders mapping identical, but the documents it stores and caches are NOT
the same as the first run's: `last_refresh` is overwritten with the second
run's `Date.now()`, so the claim's "same MetadataDocument contents" fails. -/
theorem c2_counterexample :
    (performScan envC2a).cacheSet = some docC2 ∧
    (performScan envC2b).lookups = [] ∧
    (performScan envC2b).cacheSet.map MetaInfo.folders
      = (performScan envC2a).cacheSet.map MetaInfo.folders ∧
    (performScan envC2b).cacheSet ≠ (performScan envC2a).cacheSet := by
  decide

/-- C2 (amended): for every remote folder set unchanged between two
consecutive scans of the same root (the second run starting from the first
run's cached document), the second scan performs no catalog lookup at all,
leaves the `folders` mapping exactly as it was (no duplicate lookups, no
field drift), completes with `new = 0` and `errors = 0`, and the only change
to the document is `last_refresh`, overwritten with the second run's clock. -/
theorem c2_second_scan_idempotent (env₁ env₂ : ScanEnv) (d : MetaInfo)
    (h1 : env₁.listResp.code = 200)
    (hd : (performScan env₁).cacheSet = some d)
    (hl : env₂.listResp = env₁.listResp)
    (hc : env₂.cached = some d)
    (hs : env₂.saveConfigError = none) :
    (performScan env₂).lookups = [] ∧
    (performScan env₂).cacheSet
      = some { folders := d.folders, last_refresh := env₂.now } ∧
    (performScan env₂).outcome = ScanOutcome.completed
      { total := (listedDirs env₂).length
        new := 0
        existing := (d.folders.length : Int)
        errors := 0 } := by
  have h2code : env₂.listResp.code = 200 := by rw [hl]; exact h1
  have hdf : d = finalDocOf env₁ := by
    rw [performScan_ok env₁ h1] at hd
    cases hse : env₁.saveConfigError <;> (rw [hse] at hd; simp at hd; exact hd.symm)
  have hdirs : listedDirs env₂ = listedDirs env₁ := by
    unfold listedDirs; rw [hl]
  have hres : resolvedDoc env₂ = d := by
    unfold resolvedDoc; rw [hc]
  have hcov : ∀ f ∈ listedDirs env₂,
      hasEntry (resolvedDoc env₂).folders f.name = true := by
    intro f hf
    rw [hres, hdf]
    show hasEntry (loopResult env₁).folders f.name = true
    unfold loopResult
    exact runFolders_covers env₁.lookup env₁.now (listedDirs env₁).length
      (listedDirs env₁) 0 _ f (hdirs ▸ hf)
  obtain ⟨hfold, hnew, herr, hlook⟩ :=
    runFolders_all_known env₂.lookup env₂.now (listedDirs env₂).length
      (listedDirs env₂) 0
      { folders := (resolvedDoc env₂).folders
        newCount := 0
        errorCount := 0
        progress := [⟨0, 0, none⟩, ⟨0, (listedDirs env₂).length, none⟩]
        lookups := []
        delayedAfter := [] }
      hcov
  rw [performScan_ok_none env₂ h2code hs]
  refine ⟨?_, ?_, ?_⟩
  · show (loopResult env₂).lookups = []
    unfold loopResult
    rw [hlook]
  · show some (finalDocOf env₂) = _
    unfold finalDocOf loopResult
    rw [hfold, hres]
  · show ScanOutcome.completed _ = ScanOutcome.completed _
    unfold loopResult
    rw [hfold, hnew, herr, hres]
    simp

/-- C2 witness: instantiating the amended idempotence theorem at the concrete
unchanged one-folder pair of runs: the second run looks nothing up, carries
the folders over, and completes with `new = 0`, `errors = 0`. -/
theorem c2_witness :
    (performScan envC2b).lookups = [] ∧
    (performScan envC2b).cacheSet
      = some { folders := docC2.folders, last_refresh := envC2b.now } ∧
    (performScan envC2b).outcome = ScanOutcome.completed
      { total := (listedDirs envC2b).length
        new := 0
        existing := (docC2.folders.length : Int)
        errors := 0 } :=
  c2_second_scan_idempotent envC2a envC2b docC2 (by decide) (by decide)
    (by decide) (by decide) (by decide)

theorem getEntry_append_right (l₁ l₂ : Folders) (k : String)
    (h : hasEntry l₁ k = false) : getEntry (l₁ ++ l₂) k = getEntry l₂ k := by
  have h1 : l₁.find? (fun p => p.1 == k) = none := by
    rw [List.find?_eq_none]
    intro x hx
    have hx' := List.any_eq_false.mp h x hx
    simpa using hx'
  simp [getEntry, List.find?_append, h1]

theorem getEntry_singleton_self (k : String) (v : FolderEntry) :
    getEntry [(k, v)] k = some v := by
  simp [getEntry]

theorem getEntry_append_left (l₁ l₂ : Folders) (k : String)
    (h : hasEntry l₁ k = true) : getEntry (l₁ ++ l₂) k = getEntry l₁ k := by
  obtain ⟨q, hq⟩ : ∃ q, l₁.find? (fun p => p.1 == k) = some q := by
    rw [← Option.isSome_iff_exists, List.find?_isSome]
    obtain ⟨x, hx, hxk⟩ := List.any_eq_true.mp h
    exact ⟨x, hx, hxk⟩
  simp [getEntry, List.find?_append, hq]

theorem hasEntry_append_false_left (l₁ l₂ : Folders) (k : String)
    (h : hasEntry (l₁ ++ l₂) k = false) : hasEntry l₁ k = false := by
  rw [hasEntry_append] at h
  exact (Bool.or_eq_false_iff.mp h).1

theorem entryFor_of_fail (lk : String → LookupOutcome) (now : Nat) (f : FItem)
    (h : lookupSucceeds (lk f.name) = false) :
    entryFor lk now f = sentinelEntry f.name now := by
  cases hl : lk f.name with
  | thrown => simp [entryFor, hl]
  | resp code res =>
    cases res with
    | some r =>
      have hc : ¬ code = 200 := by
        intro e
        rw [hl, e] at h
        simp [lookupSucceeds] at h
      simp [entryFor, hl, hc]
    | none => simp [entryFor, hl]

theorem runFolders_after_entry (lk : String → LookupOutcome) (now total : Nat)
    (n0 : String) :
    ∀ (fs : List FItem) (i : Nat) (s : LoopState),
      (∀ f ∈ fs, f.name ≠ n0 → hasEntry s.folders f.name = false →
        lookupSucceeds (lk f.name) = true) →
      hasEntry s.folders n0 = true →
      (runFolders lk now total fs i s).errorCount = s.errorCount ∧
      getEntry (runFolders lk now total fs i s).folders n0 = getEntry s.folders n0
  | [], _, s, _, _ => by simp [runFolders]
  | f :: rest, i, s, hyp, hn0 => by
    simp only [runFolders]
    cases hsk : hasEntry s.folders f.name with
    | true =>
      have hpf : processFolder lk now total i f s
          = { s with progress := s.progress ++ [⟨i + 1, total, some f.name⟩] } := by
        unfold processFolder
        exact stepFolder_skip _ _ _ _ hsk
      rw [hpf]
      exact runFolders_after_entry lk now total n0 rest (i + 1) _
        (fun g hg => hyp g (List.mem_cons_of_mem f hg)) hn0
    | false =>
      have hne : f.name ≠ n0 := by
        intro e
        rw [e, hn0] at hsk
        simp at hsk
      have hsucc : lookupSucceeds (lk f.name) = true :=
        hyp f (List.mem_cons_self f rest) hne hsk
      rw [processFolder_fresh lk now total i f s hsk]
      obtain ⟨he, hg⟩ := runFolders_after_entry lk now total n0 rest (i + 1)
        { s with
          progress := s.progress ++ [⟨i + 1, total, some f.name⟩]
          folders := s.folders ++ [(f.name, entryFor lk now f)]
          newCount := s.newCount + (if lookupSucceeds (lk f.name) = true then 1 else 0)
          errorCount := s.errorCount + (if lookupSucceeds (lk f.name) = true then 0 else 1)
          lookups := s.lookups ++ [f.name]
          delayedAfter :=
            s.delayedAfter ++ (if isThrown (lk f.name) = true then [] else [f.name]) }
        (fun g hg hne' hfr => hyp g (List.mem_cons_of_mem f hg) hne'
          (hasEntry_append_false_left _ _ _ hfr))
        (by
          show hasEntry (s.folders ++ [(f.name, entryFor lk now f)]) n0 = true
          rw [hasEntry_append, hn0]
          rfl)
      refine ⟨?_, ?_⟩
      · rw [he]
        show s.errorCount + (if lookupSucceeds (lk f.name) = true then 0 else 1)
            = s.errorCount
        rw [hsucc]
        simp
      · rw [hg]
        show getEntry (s.folders ++ [(f.name, entryFor lk now f)]) n0
            = getEntry s.folders n0
        exact getEntry_append_left _ _ _ hn0

theorem runFolders_one_fail (lk : String → LookupOutcome) (now total : Nat)
    (n0 : String) :
    ∀ (fs : List FItem) (i : Nat) (s : LoopState),
      (∀ f ∈ fs, f.name ≠ n0 → hasEntry s.folders f.name = false →
        lookupSucceeds (lk f.name) = true) →
      hasEntry s.folders n0 = false →
      lookupSucceeds (lk n0) = false →
      (∃ g ∈ fs, g.name = n0) →
      (runFolders lk now total fs i s).errorCount = s.errorCount + 1 ∧
      getEntry (runFolders lk now total fs i s).folders n0
        = some (sentinelEntry n0 now)
  | [], _, _, _, _, _, hex => by simp at hex
  | f :: rest, i, s, hyp, hn0, hfail, hex => by
    simp only [runFolders]
    by_cases hf : f.name = n0
    · have hsk : hasEntry s.folders f.name = false := by rw [hf]; exact hn0
      have hfailf : lookupSucceeds (lk f.name) = false := by rw [hf]; exact hfail
      rw [processFolder_fresh lk now total i f s hsk]
      obtain ⟨he, hg⟩ := runFolders_after_entry lk now total n0 rest (i + 1)
        { s with
          progress := s.progress ++ [⟨i + 1, total, some f.name⟩]
          folders := s.folders ++ [(f.name, entryFor lk now f)]
          newCount := s.newCount + (if lookupSucceeds (lk f.name) = true then 1 else 0)
          errorCount := s.errorCount + (if lookupSucceeds (lk f.name) = true then 0 else 1)
          lookups := s.lookups ++ [f.name]
          delayedAfter :=
            s.delayedAfter ++ (if isThrown (lk f.name) = true then [] else [f.name]) }
        (fun g hg hne' hfr => hyp g (List.mem_cons_of_mem f hg) hne'
          (hasEntry_append_false_left _ _ _ hfr))
        (by
          show hasEntry (s.folders ++ [(f.name, entryFor lk now f)]) n0 = true
          rw [hasEntry_append, hn0]
          simp [hasEntry, hf])
      refine ⟨?_, ?_⟩
      · rw [he]
        show s.errorCount + (if lookupSucceeds (lk f.name) = true then 0 else 1)
            = s.errorCount + 1
        rw [hfailf]
        simp
      · rw [hg]
        show getEntry (s.folders ++ [(f.name, entryFor lk now f)]) n0
            = some (sentinelEntry n0 now)
        rw [getEntry_append_right _ _ _ hn0, entryFor_of_fail lk now f hfailf, hf]
        exact getEntry_singleton_self n0 (sentinelEntry n0 now)
    · obtain ⟨g, hgmem, hgname⟩ := hex
      have hgrest : g ∈ rest := by
        rcases List.mem_cons.mp hgmem with h | h
        · exact absurd (h ▸ hgname) hf
        · exact h
      cases hsk : hasEntry s.folders f.name with
      | true =>
        have hpf : processFolder lk now total i f s
            = { s with progress := s.progress ++ [⟨i + 1, total, some f.name⟩] } := by
          unfold processFolder
          exact stepFolder_skip _ _ _ _ hsk
        rw [hpf]
        exact runFolders_one_fail lk now total n0 rest (i + 1) _
          (fun g' hg' => hyp g' (List.mem_cons_of_mem f hg')) hn0 hfail
          ⟨g, hgrest, hgname⟩
      | false =>
        have hsucc : lookupSucceeds (lk f.name) = true :=
          hyp f (List.mem_cons_self f rest) hf hsk
        rw [processFolder_fresh lk now total i f s hsk]
        obtain ⟨he, hg2⟩ := runFolders_one_fail lk now total n0 rest (i + 1)
          { s with
            progress := s.progress ++ [⟨i + 1, total, some f.name⟩]
            folders := s.folders ++ [(f.name, entryFor lk now f)]
            newCount := s.newCount + (if lookupSucceeds (lk f.name) = true then 1 else 0)
            errorCount := s.errorCount + (if lookupSucceeds (lk f.name) = true then 0 else 1)
            lookups := s.lookups ++ [f.name]
            delayedAfter :=
              s.delayedAfter ++ (if isThrown (lk f.name) = true then [] else [f.name]) }
          (fun g' hg' hne' hfr => hyp g' (List.mem_cons_of_mem f hg') hne'
            (hasEntry_append_false_left _ _ _ hfr))
          (by
            show hasEntry (s.folders ++ [(f.name, entryFor lk now f)]) n0 = false
            rw [hasEntry_append, hn0]
            simp [hasEntry, hf])
          hfail ⟨g, hgrest, hgname⟩
        refine ⟨?_, ?_⟩
        · rw [he]
          show s.errorCount + (if lookupSucceeds (lk f.name) = true then 0 else 1) + 1
              = s.errorCount + 1
          rw [hsucc]
          simp
        · exact hg2

/-- C3, counterexample: in a scan where the lookup for the previously-unknown
folder "B" returns no match, the sentinel entry recorded for "B" has
`media_type` `"movie"`, which is not a zeroed/empty field — the claim's "all
other fields zeroed/empty" does not hold of the sentinel as written by the
code. -/
theorem c3_counterexample :
    ((performScan envC3).cacheSet.bind (fun d => getEntry d.folders "B")).map
        (fun e => (e.media_type, e.failed)) = some ("movie", true) ∧
    ("movie" : String) ≠ "" := by
  decide

/-- C3 (amended): for every scan over N listed folders — previously-known
ones included, which are skipped at the already-exists check — in which the
catalog lookup for exactly one previously-unknown folder fails (either a
no-match response or the lookup call throwing, every other previously-unknown
listed folder resolving successfully), the scan still completes with entries
present for all N folders; the failing folder's entry is a sentinel with
`failed = true`, `title` equal to the folder name, and all other fields
zeroed/empty except `media_type`, which is set to `"movie"`; the task result
has `errors = 1` and `total = N`; and no per-folder failure aborts the loop. -/
theorem c3_per_folder_isolation (env : ScanEnv) (f0 : FItem)
    (hcode : env.listResp.code = 200)
    (hsave : env.saveConfigError = none)
    (hmem : f0 ∈ listedDirs env)
    (hf0 : hasEntry (resolvedDoc env).folders f0.name = false)
    (hfail : lookupSucceeds (env.lookup f0.name) = false)
    (hothers : ∀ f ∈ listedDirs env, f.name ≠ f0.name →
      hasEntry (resolvedDoc env).folders f.name = false →
      lookupSucceeds (env.lookup f.name) = true) :
    (∀ f ∈ listedDirs env, hasEntry (finalDocOf env).folders f.name = true) ∧
    getEntry (finalDocOf env).folders f0.name
      = some (sentinelEntry f0.name env.now) ∧
    (performScan env).storeWrites = [finalDocOf env] ∧
    ∃ r, (performScan env).outcome = ScanOutcome.completed r ∧
      r.total = (listedDirs env).length ∧ r.errors = 1 := by
  obtain ⟨herr, hget⟩ :=
    runFolders_one_fail env.lookup env.now (listedDirs env).length f0.name
      (listedDirs env) 0
      { folders := (resolvedDoc env).folders
        newCount := 0
        errorCount := 0
        progress := [⟨0, 0, none⟩, ⟨0, (listedDirs env).length, none⟩]
        lookups := []
        delayedAfter := [] }
      hothers hf0 hfail ⟨f0, hmem, rfl⟩
  refine ⟨?_, ?_, ?_, ?_⟩
  · intro f hf
    show hasEntry (loopResult env).folders f.name = true
    unfold loopResult
    exact runFolders_covers env.lookup env.now (listedDirs env).length
      (listedDirs env) 0 _ f hf
  · show getEntry (loopResult env).folders f0.name = _
    unfold loopResult
    exact hget
  · rw [performScan_ok_none env hcode hsave]
  · refine ⟨_, by rw [performScan_ok_none env hcode hsave], rfl, ?_⟩
    show (loopResult env).errorCount = 1
    unfold loopResult
    rw [herr]

/-- C3 witness: instantiating per-folder isolation at the concrete incremental
scan over ["K", "A", "B"] where "K" is previously known and skipped, "A"
resolves, and only the previously-unknown "B" fails: all three folders have
entries, "B" holds the sentinel, and the task completes with `total = 3`,
`errors = 1`. -/
theorem c3_witness :
    (∀ f ∈ listedDirs envC3, hasEntry (finalDocOf envC3).folders f.name = true) ∧
    getEntry (finalDocOf envC3).folders "B"
      = some (sentinelEntry "B" 5) ∧
    (performScan envC3).storeWrites = [finalDocOf envC3] ∧
    ∃ r, (performScan envC3).outcome = ScanOutcome.completed r ∧
      r.total = (listedDirs envC3).length ∧ r.errors = 1 :=
  c3_per_folder_isolation envC3 { name := "B", is_dir := true } (by decide)
    (by decide) (by decide) (by decide) (by decide) (by decide)

/-- C8: for every OpenList detail request whose folder has no metadata entry
in the cached/stored document (absent document, or document without that
key), the request is not an error: a detail record is still produced, with
the title falling back to the folder identifier returned by the OpenList
detail call and the poster, year and description fields empty. -/
theorem c8_missing_meta_graceful (id folder : String) (configured : Bool)
    (meta : Option MetaInfo) (eps : List Episode) (imgUrl enc : String → String)
    (down : DownstreamOutcome)
    (hid : id ≠ "")
    (hcfg : configured = true)
    (hmeta : meta.bind (fun m => getEntry m.folders id) = none) :
    detailGET true id "openlist" configured meta
        (OpenListOutcome.success folder eps) imgUrl enc down =
      DetailResp.okOpenlist
        { source := "openlist"
          source_name := "私人影库"
          id := folder
          title := folder
          poster := ""
          year := ""
          douban_id := 0
          desc := ""
          episodes := eps.map (fun ep =>
            "/api/openlist/play?folder=" ++ enc folder ++ "&fileName="
              ++ enc ep.fileName)
          episodes_titles := eps.map (fun ep =>
            jsOrS ep.title ("第" ++ toString ep.episode ++ "集")) } := by
  subst hcfg
  unfold detailGET
  rw [if_neg (by decide)]
  rw [if_neg (by simp [hid])]
  rw [if_pos rfl]
  unfold handleOpenlist
  rw [if_neg (by decide)]
  unfold assembleDetail
  rw [hmeta]
  rfl

/-- C8 witness: a request for the unscanned folder "My Movie (2010)" with no
stored document still yields a playable detail record with empty descriptive
fields and the folder name as title. -/
theorem c8_witness :
    detailGET true "My Movie (2010)" "openlist" true none
        (OpenListOutcome.success "My Movie (2010)" [⟨"e1.mp4", "", 1⟩])
        (fun s => s) (fun s => s) DownstreamOutcome.ok =
      DetailResp.okOpenlist
        { source := "openlist"
          source_name := "私人影库"
          id := "My Movie (2010)"
          title := "My Movie (2010)"
          poster := ""
          year := ""
          douban_id := 0
          desc := ""
          episodes := ["/api/openlist/play?folder=My Movie (2010)&fileName=e1.mp4"]
          episodes_titles := ["第1集"] } :=
  c8_missing_meta_graceful "My Movie (2010)" "My Movie (2010)" true none
    [⟨"e1.mp4", "", 1⟩] (fun s => s) (fun s => s) DownstreamOutcome.ok
    (by decide) rfl rfl

/-- C10: for source "openlist" the detail route never applies the
`/^[\w-]+$/` id-format validation: every nonempty id — spaces, slashes and
other non-word characters included — reaches the OpenList branch, and the
400 response with message 无效的视频ID格式 is reachable only when the source
is not "openlist". -/
theorem c10_openlist_skips_id_validation (auth : Bool) (id source : String)
    (configured : Bool) (meta : Option MetaInfo) (ol : OpenListOutcome)
    (imgUrl enc : String → String) (down : DownstreamOutcome) :
    (source = "openlist" → id ≠ "" →
      detailGET true id source configured meta ol imgUrl enc down
        = handleOpenlist configured meta ol imgUrl enc id) ∧
    (detailGET auth id source configured meta ol imgUrl enc down
        = DetailResp.badRequest "无效的视频ID格式" → source ≠ "openlist") := by
  constructor
  · intro hsrc hid
    subst hsrc
    unfold detailGET
    rw [if_neg (by decide)]
    rw [if_neg (by simp [hid])]
    rw [if_pos rfl]
  · intro hresp hsrc
    subst hsrc
    by_cases ha : auth = true
    · subst ha
      unfold detailGET at hresp
      rw [if_neg (by decide)] at hresp
      by_cases hid : id = ""
      · rw [if_pos (by simp [hid])] at hresp
        exact absurd hresp (by decide)
      · rw [if_neg (by simp [hid])] at hresp
        rw [if_pos rfl] at hresp
        revert hresp
        unfold handleOpenlist
        cases configured <;> cases ol <;> simp
    · have ha' : auth = false := by
        cases auth
        · rfl
        · exact absurd rfl ha
      subst ha'
      unfold detailGET at hresp
      rw [if_pos (by decide)] at hresp
      exact absurd hresp (by decide)

/-- C10 witness: the id "a b/c" (spaces and a slash, rejected by the regex)
still takes the OpenList branch when the source is "openlist", and a request
that does receive the 400 invalid-id-format response had a non-"openlist"
source. -/
theorem c10_witness :
    (detailGET true "a b/c" "openlist" true none
        (OpenListOutcome.success "a b/c" []) (fun s => s) (fun s => s)
        DownstreamOutcome.ok
      = handleOpenlist true none (OpenListOutcome.success "a b/c" [])
          (fun s => s) (fun s => s) "a b/c") ∧
    ("other" : String) ≠ "openlist" :=
  ⟨(c10_openlist_skips_id_validation true "a b/c" "openlist" true none
      (OpenListOutcome.success "a b/c" []) (fun s => s) (fun s => s)
      DownstreamOutcome.ok).1 rfl (by decide),
   (c10_openlist_skips_id_validation true "a b" "other" true none
      (OpenListOutcome.success "a b" []) (fun s => s) (fun s => s)
      DownstreamOutcome.ok).2 (by decide)⟩

end MoonTV
